import Mathlib

/-!
Verification of the decimal precision/scale inference and conversion code in
`cpp/src/arrow/python/decimal.cc`.

The C++ `int32_t` quantities (digit counts, exponents, precisions, scales)
are embedded as unbounded `Int`: signed overflow is undefined behaviour in
the source, and every claim is about in-range arithmetic.  Fallible
operations return `Except`.
-/

namespace ArrowPyDecimal

/-- `std::numeric_limits<int32_t>::min()`, the sentinel used by the default
`DecimalMetadata` constructor. -/
def int32Min : Int := -(2 ^ 31)

/-- Embeds `InferDecimalPrecisionAndScale` (decimal.cc lines 76-93), the pure
tail of the function once `num_digits` and `exponent` have been extracted from
the Python object.  Returns the pair `(precision, scale)` written through the
out-parameters.  `static_cast<int32_t>(exponent < 0) * -exponent` is the
conditional `if exponent < 0 then -exponent else 0`. -/
def InferDecimalPrecisionAndScale (num_digits exponent : Int) : Int × Int :=
  let abs_exponent := |exponent|
  if num_digits ≤ abs_exponent then
    let num_additional_zeros := if exponent < 0 then abs_exponent - num_digits else exponent
    let scale := if exponent < 0 then -exponent else 0
    (num_digits + num_additional_zeros, scale)
  else
    let num_additional_zeros : Int := 0
    (num_digits + num_additional_zeros, -exponent)

/-- The `DecimalMetadata` accumulator: running precision and scale. -/
structure DecimalMetadata where
  precision : Int
  scale : Int
deriving Repr, DecidableEq

/-- The default `DecimalMetadata()` constructor: both fields start at the
`int32` minimum sentinel. -/
def DecimalMetadata.init : DecimalMetadata := ⟨int32Min, int32Min⟩

/-- Embeds `DecimalMetadata::Update(int32_t, int32_t)` (decimal.cc lines
170-184).  The source mutates `precision_` and `scale_` in place; here the
new state is returned.  Note the correction branch adds the *new* scale
(`precision_ += scale_` after `scale_` was updated) and compares
`suggested_precision` against the *pre-update* precision. -/
def DecimalMetadata.Update (m : DecimalMetadata)
    (suggested_precision suggested_scale : Int) : DecimalMetadata :=
  let current_precision := m.precision
  let new_precision := max current_precision suggested_precision
  let current_scale := m.scale
  let new_scale := max current_scale suggested_scale
  if suggested_scale = 0 ∧ suggested_precision > current_precision then
    ⟨new_precision + new_scale, new_scale⟩
  else
    ⟨new_precision, new_scale⟩

/-- Folds a list of suggested `(precision, scale)` pairs into the
accumulator, in list order (one `Update` per observed value). -/
def DecimalMetadata.UpdateAll (m : DecimalMetadata)
    (suggestions : List (Int × Int)) : DecimalMetadata :=
  suggestions.foldl (fun acc x => acc.Update x.1 x.2) m

/-- View of one arbitrary-precision decimal value, as obtained from the
Python object: `as_tuple().digits` (significant digits, most-significant
first), `as_tuple().exponent`, and the `is_nan()` flag. -/
structure DecimalValueView where
  digits : List Int
  exponent : Int
  is_nan : Bool
deriving Repr, DecidableEq

/-- Embeds `DecimalMetadata::Update(PyObject*)` (decimal.cc lines 186-198):
NaN values are skipped (state unchanged); otherwise infer precision and scale
from the digit count and exponent and fold them in via `Update`. -/
def DecimalMetadata.UpdateFromValue (m : DecimalMetadata)
    (v : DecimalValueView) : DecimalMetadata :=
  if v.is_nan then m
  else
    let ps := InferDecimalPrecisionAndScale (v.digits.length : Int) v.exponent
    m.Update ps.1 ps.2

/-- Error values produced by the conversion path.  `invalid` embeds the
source's `Status::Invalid` (the only failing status constructed in
decimal.cc); `outOfRange` is the spec's `OutOfRange` kind, modelled for the
external rescale primitive. -/
inductive DecimalError where
  | invalid (msg : String)
  | outOfRange (msg : String)
deriving Repr, DecidableEq

/-- The externally supplied target decimal type: `arrow_type.precision()` and
`arrow_type.scale()`. -/
structure DecimalType where
  precision : Int
  scale : Int
deriving Repr, DecidableEq

/-- Smallest value of a signed 128-bit integer. -/
def decimal128Min : Int := -(2 ^ 127)

/-- Largest value of a signed 128-bit integer. -/
def decimal128Max : Int := 2 ^ 127 - 1

/-- Modelled from the spec: the external 128-bit rescale primitive
(`Decimal128::Rescale`, whose source is not in this repository).  Multiplies
by `10^(toScale - fromScale)` when the target scale is larger, failing with
an out-of-range error when the product leaves the signed 128-bit range;
divides truncating toward zero when the target scale is smaller. -/
def Rescale (value fromScale toScale : Int) : Except DecimalError Int :=
  if fromScale ≤ toScale then
    let r := value * 10 ^ (toScale - fromScale).toNat
    if r < decimal128Min ∨ decimal128Max < r then
      .error (.outOfRange "Rescale would overflow the 128-bit range")
    else .ok r
  else
    .ok (Int.tdiv value (10 ^ (fromScale - toScale).toNat))

/-- Base-10 value of a list of ASCII digit characters, most significant
first. -/
def digitsToNat (l : List Char) : Nat :=
  l.foldl (fun a c => 10 * a + (c.toNat - 48)) 0

/-- Modelled from the spec: the external generic decimal literal parser
(`Decimal128::FromString`, whose source is not in this repository):
`parse(text) -> (int128 unscaled value, precision, scale)`, failing on
malformed input.  Accepts an optional leading minus sign, decimal digits and
at most one decimal point; scale is the number of fractional digits,
precision the number of significant digits (at least 1). -/
def FromString (text : String) : Except DecimalError (Int × Int × Int) :=
  let cs := text.toList
  let neg := cs.head? = some '-'
  let cs := if neg then cs.tail else cs
  let intPart := cs.takeWhile (fun c => c ≠ '.')
  let rest := cs.drop intPart.length
  let fracPart := rest.tail
  let allDigits := intPart ++ fracPart
  if allDigits.all Char.isDigit ∧ allDigits ≠ [] then
    let significant := allDigits.dropWhile (fun c => c = '0')
    let magnitude : Int := (digitsToNat allDigits : Int)
    if magnitude > decimal128Max then
      .error (.invalid "The string does not fit into 128 bits")
    else
      let unscaled : Int := if neg then -magnitude else magnitude
      let precision : Int := max 1 (significant.length : Int)
      let scale : Int := (fracPart.length : Int)
      .ok (unscaled, precision, scale)
  else .error (.invalid "The string is not a valid decimal number")

/-- Embeds `DecimalFromPythonDecimal` (decimal.cc lines 110-140).  The
Python `str()` call is the identity on our canonical text input; the parse
and rescale steps use the spec-modelled external primitives above.  On
success the 128-bit unscaled value is returned; the precision check fails
with `Status::Invalid` carrying both precisions in its message. -/
def DecimalFromPythonDecimal (text : String) (arrow_type : DecimalType) :
    Except DecimalError Int :=
  match FromString text with
  | .error e => .error e
  | .ok (out, inferred_precision, inferred_scale) =>
    if inferred_precision > arrow_type.precision then
      .error (.invalid ("Decimal type with precision " ++ toString inferred_precision ++
        " does not fit into precision inferred from first array element: " ++
        toString arrow_type.precision))
    else if arrow_type.scale ≠ inferred_scale then
      Rescale out inferred_scale arrow_type.scale
    else
      .ok out

/-- Whether a conversion result is the spec's `OutOfRange` error kind. -/
def isOutOfRangeError : Except DecimalError Int → Bool
  | .error (.outOfRange _) => true
  | _ => false

end ArrowPyDecimal

deriving instance DecidableEq for Except

namespace ArrowPyDecimal

set_option maxRecDepth 4096

/-! Helper lemmas characterising the two fields written by
`DecimalMetadata::Update`. -/

/-- The scale after an `Update` is the max of the running scale and the
suggested scale, in both branches. -/
theorem update_scale_eq (m : DecimalMetadata) (p s : Int) :
    (m.Update p s).scale = max m.scale s := by
  simp only [DecimalMetadata.Update]
  split_ifs <;> rfl

/-- The precision after an `Update`: the max of the running and suggested
precisions, plus the new scale when the correction branch fires. -/
theorem update_precision_eq (m : DecimalMetadata) (p s : Int) :
    (m.Update p s).precision =
      if s = 0 ∧ p > m.precision then max m.precision p + max m.scale s
      else max m.precision p := by
  simp only [DecimalMetadata.Update]
  split_ifs <;> rfl

/-- Two metadata states with equal fields are equal. -/
theorem meta_ext (a b : DecimalMetadata) (h1 : a.precision = b.precision)
    (h2 : a.scale = b.scale) : a = b := by
  cases a; cases b; cases h1; cases h2; rfl

/-- Folding max over the scale components is invariant under permutation of
the list. -/
theorem foldl_max_perm {l1 l2 : List (Int × Int)} (h : l1.Perm l2) :
    ∀ a : Int, l1.foldl (fun a x => max a x.2) a = l2.foldl (fun a x => max a x.2) a := by
  induction h with
  | nil => intro a; rfl
  | cons x _ ih => intro a; simp only [List.foldl_cons]; exact ih _
  | swap x y l => intro a; simp only [List.foldl_cons]; rw [sup_right_comm]
  | trans _ _ ih1 ih2 => intro a; rw [ih1 a, ih2 a]

/-- The scale of a folded sequence of updates is the max-fold of the
suggested scales. -/
theorem scale_UpdateAll (l : List (Int × Int)) :
    ∀ m : DecimalMetadata, (m.UpdateAll l).scale = l.foldl (fun a x => max a x.2) m.scale := by
  induction l with
  | nil => intro m; rfl
  | cons x l ih =>
    intro m
    simp only [DecimalMetadata.UpdateAll, List.foldl_cons] at ih ⊢
    rw [ih (m.Update x.1 x.2), update_scale_eq]

/-- C1, amended: when `digit_count > |exponent|` the inferred precision is
`digit_count` and the inferred scale is `-exponent` — also for positive
exponents, where the code returns the negative scale `-exponent` rather
than the `0` the claim states. -/
theorem infer_digitCount_gt_absExp (d e : Int) (h : |e| < d) :
    InferDecimalPrecisionAndScale d e = (d, -e) := by
  simp [InferDecimalPrecisionAndScale, not_le.mpr h]

/-- Witness for `infer_digitCount_gt_absExp` at `digit_count = 3`,
`exponent = -2`. -/
theorem infer_digitCount_gt_absExp_witness :
    |(-2 : Int)| < 3 ∧ InferDecimalPrecisionAndScale 3 (-2) = (3, 2) :=
  ⟨by decide, infer_digitCount_gt_absExp 3 (-2) (by decide)⟩

/-- C1, counterexample to the claim as stated: at `digit_count = 3`,
`exponent = 2` (so `digit_count > exponent > 0`) the code returns scale
`-2`, not the claimed `0`. -/
theorem infer_positive_exponent_scale_cex :
    |(2 : Int)| < 3 ∧ InferDecimalPrecisionAndScale 3 2 = (3, -2) ∧
      (InferDecimalPrecisionAndScale 3 2).2 ≠ 0 := by decide

/-- C2, amended: for `digit_count ≥ 0`, excluding the degenerate
`digit_count = 0 ∧ exponent = 0` case, the inferred precision is at least 1;
the inferred scale is nonnegative whenever `exponent ≤ 0` or
`digit_count ≤ exponent` (it is negative when
`digit_count > exponent > 0`). -/
theorem infer_precision_pos (d e : Int) (h0 : 0 ≤ d) (hne : d ≠ 0 ∨ e ≠ 0) :
    1 ≤ (InferDecimalPrecisionAndScale d e).1 ∧
      ((e ≤ 0 ∨ d ≤ e) → 0 ≤ (InferDecimalPrecisionAndScale d e).2) := by
  have hnn : (0 : Int) ≤ |e| := abs_nonneg e
  rcases abs_choice e with h | h <;>
    rw [h] at hnn <;>
    simp only [InferDecimalPrecisionAndScale, h] <;>
    split_ifs <;>
    dsimp only <;>
    constructor <;>
    omega

/-- Witness for `infer_precision_pos` at `digit_count = 2`,
`exponent = -1`. -/
theorem infer_precision_pos_witness :
    (0 : Int) ≤ 2 ∧ ((2 : Int) ≠ 0 ∨ (-1 : Int) ≠ 0) ∧
      (1 ≤ (InferDecimalPrecisionAndScale 2 (-1)).1 ∧
        (((-1 : Int) ≤ 0 ∨ (2 : Int) ≤ -1) → 0 ≤ (InferDecimalPrecisionAndScale 2 (-1)).2)) :=
  ⟨by decide, by decide, infer_precision_pos 2 (-1) (by decide) (by decide)⟩

/-- C2, counterexample to the claim as stated: at `digit_count = 3`,
`exponent = 2` (not the degenerate case) the inferred scale is `-2 < 0`. -/
theorem infer_scale_nonneg_cex :
    (0 : Int) ≤ 3 ∧ ¬((3 : Int) = 0 ∧ (2 : Int) = 0) ∧
      (InferDecimalPrecisionAndScale 3 2).2 < 0 := by decide

/-- C3: `Update` produces exactly `new_scale = max(current scale, suggested
scale)` and `new_precision = max(current precision, suggested precision)`,
increased by the new scale exactly when the suggested scale is zero and the
suggested precision strictly exceeds the pre-update running precision. -/
theorem update_formula (m : DecimalMetadata) (p s : Int) :
    (m.Update p s).scale = max m.scale s ∧
      (m.Update p s).precision =
        (if s = 0 ∧ p > m.precision then max m.precision p + max m.scale s
         else max m.precision p) := by
  simp only [DecimalMetadata.Update]
  split_ifs with h <;> exact ⟨rfl, rfl⟩

/-- C4, counterexample to the claim as stated: folding the suggestions
`(3, 0)` and `(2, 2)` into a fresh metadata in the two possible orders gives
final precisions 3 and 5 — the result is not order-independent. -/
theorem updateAll_order_dependent_cex :
    List.Perm [((3 : Int), (0 : Int)), (2, 2)] [(2, 2), (3, 0)] ∧
      DecimalMetadata.UpdateAll .init [(3, 0), (2, 2)] = ⟨3, 2⟩ ∧
      DecimalMetadata.UpdateAll .init [(2, 2), (3, 0)] = ⟨5, 2⟩ := by decide

/-- C4, amended: only the final scale is independent of the order in which a
multiset of suggested pairs is folded in; the final precision can depend on
the order (the scale-zero correction branch makes it order-sensitive). -/
theorem updateAll_scale_perm_invariant (m : DecimalMetadata) {l1 l2 : List (Int × Int)}
    (h : l1.Perm l2) : (m.UpdateAll l1).scale = (m.UpdateAll l2).scale := by
  rw [scale_UpdateAll, scale_UpdateAll, foldl_max_perm h]

/-- Witness for `updateAll_scale_perm_invariant` on the two orders of
`[(3, 0), (2, 2)]`. -/
theorem updateAll_scale_perm_invariant_witness :
    List.Perm [((3 : Int), (0 : Int)), (2, 2)] [(2, 2), (3, 0)] ∧
      (DecimalMetadata.UpdateAll .init [(3, 0), (2, 2)]).scale =
        (DecimalMetadata.UpdateAll .init [(2, 2), (3, 0)]).scale :=
  ⟨by decide, updateAll_scale_perm_invariant .init (by decide)⟩

/-- C5, counterexample to the claim as stated: converting `"12345"` against
target precision 4 fails (inferred precision 5 > 4), but with the source's
`Status::Invalid`, not an `OutOfRange` error. -/
theorem convert_precision_overflow_status_cex :
    FromString "12345" = .ok (12345, 5, 0) ∧ (4 : Int) < 5 ∧
      isOutOfRangeError (DecimalFromPythonDecimal "12345" ⟨4, 0⟩) = false ∧
      DecimalFromPythonDecimal "12345" ⟨4, 0⟩ =
        .error (.invalid ("Decimal type with precision " ++ toString (5 : Int) ++
          " does not fit into precision inferred from first array element: " ++
          toString (4 : Int))) := by decide

/-- C5, amended: conversion fails with the `Invalid`-status
precision-overflow error — whose message carries both the inferred and the
target precision — exactly when the inferred precision strictly exceeds the
target precision. -/
theorem convert_precision_overflow_iff (text : String) (t : DecimalType)
    (u p s : Int) (hparse : FromString text = .ok (u, p, s)) :
    (DecimalFromPythonDecimal text t =
        .error (.invalid ("Decimal type with precision " ++ toString p ++
          " does not fit into precision inferred from first array element: " ++
          toString t.precision))) ↔ t.precision < p := by
  simp only [DecimalFromPythonDecimal, hparse]
  constructor
  · intro h
    by_contra hn
    rw [if_neg (by exact fun hgt => hn hgt)] at h
    split_ifs at h with hsc
    simp only [Rescale] at h
    split_ifs at h <;> simp at h
  · intro h
    rw [if_pos h]

/-- Witness for `convert_precision_overflow_iff` at `"12345"` against
target `(precision 4, scale 0)`. -/
theorem convert_precision_overflow_iff_witness :
    FromString "12345" = .ok (12345, 5, 0) ∧
      DecimalFromPythonDecimal "12345" ⟨4, 0⟩ =
        .error (.invalid ("Decimal type with precision " ++ toString (5 : Int) ++
          " does not fit into precision inferred from first array element: " ++
          toString (4 : Int))) :=
  ⟨by decide,
    (convert_precision_overflow_iff "12345" ⟨4, 0⟩ 12345 5 0 (by decide)).mpr (by decide)⟩

/-- C6: when the inferred precision fits, the parsed unscaled value is
returned unchanged if the inferred scale equals the target scale and is
rescaled (via the external rescale primitive, which fails out-of-range when
the scaled-up value leaves the 128-bit range) exactly when the scales
differ; converting `"1.5"` against `(precision 5, scale 3)` yields the
unscaled value 1500. -/
theorem convert_rescale_behavior :
    (∀ (text : String) (t : DecimalType) (u p s : Int),
        FromString text = .ok (u, p, s) → p ≤ t.precision →
          ((s = t.scale → DecimalFromPythonDecimal text t = .ok u) ∧
           (s ≠ t.scale → DecimalFromPythonDecimal text t = Rescale u s t.scale))) ∧
    (∀ v fs ts : Int, fs ≤ ts →
        (v * 10 ^ (ts - fs).toNat < decimal128Min ∨
          decimal128Max < v * 10 ^ (ts - fs).toNat) →
        Rescale v fs ts = .error (.outOfRange "Rescale would overflow the 128-bit range")) ∧
    DecimalFromPythonDecimal "1.5" ⟨5, 3⟩ = .ok 1500 := by
  refine ⟨?_, ?_, by decide⟩
  · intro text t u p s hparse hp
    simp only [DecimalFromPythonDecimal, hparse]
    rw [if_neg (not_lt.mpr hp)]
    constructor
    · intro hs
      rw [if_neg (by simp [hs])]
    · intro hs
      rw [if_pos (Ne.symm hs)]
  · intro v fs ts h hov
    simp only [Rescale, if_pos h, if_pos hov]

/-- Witness for `convert_rescale_behavior` at `"1.5"` against
`(precision 5, scale 3)`: the differing scales route through the rescale
primitive. -/
theorem convert_rescale_behavior_witness :
    FromString "1.5" = .ok (15, 2, 1) ∧ (2 : Int) ≤ 5 ∧ (1 : Int) ≠ 3 ∧
      DecimalFromPythonDecimal "1.5" ⟨5, 3⟩ = Rescale 15 1 3 :=
  ⟨by decide, by decide, by decide,
    (convert_rescale_behavior.1 "1.5" ⟨5, 3⟩ 15 2 1 (by decide) (by decide)).2 (by decide)⟩

/-- C7: updating from a NaN value leaves the metadata unchanged, for every
metadata state. -/
theorem updateFromValue_nan_id (m : DecimalMetadata) (v : DecimalValueView)
    (h : v.is_nan = true) : m.UpdateFromValue v = m := by
  simp [DecimalMetadata.UpdateFromValue, h]

/-- Witness for `updateFromValue_nan_id` at a concrete metadata state and a
concrete NaN value. -/
theorem updateFromValue_nan_id_witness :
    (⟨7, 2⟩ : DecimalMetadata).UpdateFromValue ⟨[1, 2], -1, true⟩ = ⟨7, 2⟩ :=
  updateFromValue_nan_id ⟨7, 2⟩ ⟨[1, 2], -1, true⟩ rfl

/-- C8: every single `Update` step leaves both the stored precision and the
stored scale no smaller than before. -/
theorem update_monotone (m : DecimalMetadata) (p s : Int) :
    m.precision ≤ (m.Update p s).precision ∧ m.scale ≤ (m.Update p s).scale := by
  simp only [DecimalMetadata.Update]
  split_ifs with h
  · refine ⟨?_, le_max_left _ _⟩
    rw [h.1]
    exact le_add_of_le_of_nonneg (le_max_left _ _) (le_max_right _ _)
  · exact ⟨le_max_left _ _, le_max_left _ _⟩

/-- C9: the spec's fixed test vectors — digits `[1,2,3]` with exponent `-2`
gives `(3, 2)`, digits `[5]` with exponent `3` gives `(4, 0)`, digits `[9]`
with exponent `0` gives `(1, 0)`. -/
theorem infer_test_vectors :
    InferDecimalPrecisionAndScale (([1, 2, 3] : List Int).length : Int) (-2) = (3, 2) ∧
      InferDecimalPrecisionAndScale (([5] : List Int).length : Int) 3 = (4, 0) ∧
      InferDecimalPrecisionAndScale (([9] : List Int).length : Int) 0 = (1, 0) := by decide

/-- C10: `Update` is idempotent — applying the same suggested pair twice in
immediate succession changes nothing the second time, because after the
first application the running precision is at least the suggested
precision. -/
theorem update_idempotent (m : DecimalMetadata) (p s : Int) :
    (m.Update p s).Update p s = m.Update p s := by
  have hple : p ≤ (m.Update p s).precision := by
    rw [update_precision_eq]
    split_ifs with hc
    · have hA : p ≤ max m.precision p := le_max_right _ _
      have hB : (0 : Int) ≤ max m.scale s := by
        rw [hc.1]; exact le_max_right _ _
      omega
    · exact le_max_right _ _
  have hsle : s ≤ (m.Update p s).scale := by
    rw [update_scale_eq]; exact le_max_right _ _
  apply meta_ext
  · rw [update_precision_eq, if_neg (by rintro ⟨hs0, hp⟩; omega)]
    exact max_eq_left hple
  · rw [update_scale_eq]
    exact max_eq_left hsle

end ArrowPyDecimal
